import Mathlib

/-!
Shallow embedding of `src/index.js` (RN-Installer): a single-file installer
script that shells out to external commands.  Each external-world effect is
recorded as an `Event`; the outcome of every `execSync` invocation is given
by an oracle `Env.execResult` (`none` = the subprocess succeeded, `some m` =
it raised an error with message `m`).  Control flow (try/catch,
`process.exit`) is embedded into the `StepResult` component of a `Run`.
-/

namespace RNInstaller

/-- One observable effect of the script: a silenced existence probe
(`execSync` with `stdio: ignore`), a side-effectful command invocation
(`execSync` with `stdio: inherit`), one of the four tagged console message
kinds, a bare `console.log`, or an interactive question. -/
inductive Event where
  | probe : String → Event
  | exec : String → Event
  | step : String → Event
  | success : String → Event
  | error : String → Event
  | warning : String → Event
  | plain : String → Event
  | ask : String → Event
  deriving DecidableEq, Repr

/-- How a stretch of the script ends: normal completion, a hard
`process.exit code` (bypasses the catch in `execute`), or a raised error
carrying the failure message (caught by `execute`'s catch). -/
inductive StepResult where
  | ok : StepResult
  | exit : Nat → StepResult
  | err : String → StepResult
  deriving DecidableEq, Repr

/-- The ambient world of one run: the immutable platform tag read from
`process.platform`, the outcome oracle for `execSync` (command string ↦
`none` on success, `some msg` when the invocation raises `msg`), and the
line the user types at the single interactive prompt. -/
structure Env where
  platform : String
  execResult : String → Option String
  answer : String

/-- A stretch of the script: its outcome and the trace of events it emits. -/
abbrev Run := StepResult × List Event

/-- `execSync(cmd, stdio: inherit)`: emits the invocation and raises
(`StepResult.err`) exactly when the oracle says the subprocess failed. -/
def execCmd (env : Env) (cmd : String) : Run :=
  match env.execResult cmd with
  | none => (StepResult.ok, [Event.exec cmd])
  | some m => (StepResult.err m, [Event.exec cmd])

/-- `checkCommand(command)` (src/index.js:74-81): runs
`<command> --version` with output ignored; `true` on success, `false`
when the invocation raises — the failure is swallowed, never re-raised. -/
def checkCommand (env : Env) (command : String) : Bool × List Event :=
  match env.execResult (command ++ " --version") with
  | none => (true, [Event.probe (command ++ " --version")])
  | some _ => (false, [Event.probe (command ++ " --version")])

/-- A pure stretch that only prints: always succeeds. -/
def emits (tr : List Event) : Run := (StepResult.ok, tr)

/-- Sequencing of two stretches: the second runs only when the first
completed normally (a raised error or a hard exit short-circuits). -/
def andThen (x : Run) (f : Unit → Run) : Run :=
  match x.1 with
  | StepResult.ok => ((f ()).1, x.2 ++ (f ()).2)
  | r => (r, x.2)

def nvmInstallCmd : String :=
  "curl -o- https://raw.githubusercontent.com/nvm-sh/nvm/v0.39.0/install.sh | bash"

def nvmLtsCmd : String := "source ~/.bashrc && nvm install --lts"

def npmCliCmd : String := "npm install -g react-native-cli"

def brewBootstrapCmd : String :=
  "/bin/bash -c \"$(curl -fsSL https://raw.githubusercontent.com/Homebrew/install/HEAD/install.sh)\""

def watchmanCmd : String := "brew install watchman"

def brewJdkCmd : String := "brew install adoptopenjdk/openjdk/adoptopenjdk11"

def aptUpdateCmd : String := "sudo apt-get update"

def aptJdkCmd : String := "sudo apt-get install -y openjdk-11-jdk"

def aptAdbCmd : String := "sudo apt-get install -y android-tools-adb android-tools-fastboot"

def chocoBootstrapCmd : String :=
  "powershell Set-ExecutionPolicy Bypass -Scope Process -Force; [System.Net.ServicePointManager]::SecurityProtocol = [System.Net.ServicePointManager]::SecurityProtocol -bor 3072; iex ((New-Object System.Net.WebClient).DownloadString(\x27https://chocolatey.org/install.ps1\x27))"

def chocoJdkCmd : String := "choco install -y openjdk11"

def openMacCmd : String := "open https://developer.android.com/studio"

def openLinuxCmd : String := "xdg-open https://developer.android.com/studio"

def openWinCmd : String := "start https://developer.android.com/studio"

def androidPrompt : String := "Would you like to download Android Studio? (y/n): "

def androidManualWarn : String :=
  "Please complete Android Studio installation and setup Android SDK manually."

/-- `answer.toLowerCase()`: character-wise lowercasing of the reply. -/
def toLowerStr (s : String) : String := ⟨s.data.map Char.toLower⟩

/-- `checkPrerequisites` (src/index.js:83-93): probes for `git`; when
absent, prints a warning and hard-exits the process with code 1. -/
def checkPrerequisites (env : Env) : Run :=
  let g := checkCommand env "git"
  if g.1 then
    (StepResult.ok,
      Event.step "Checking prerequisites..." :: g.2 ++
        [Event.success "Prerequisites check complete."])
  else
    (StepResult.exit 1,
      Event.step "Checking prerequisites..." :: g.2 ++
        [Event.warning "Git is not installed. Please install Git and run this script again."])

/-- `checkNodeJS` (src/index.js:95-112): probes for `node`; when absent, on
`win32` prints guidance and hard-exits with code 1, otherwise downloads the
NVM bootstrap and installs the LTS runtime. -/
def checkNodeJS (env : Env) : Run :=
  let n := checkCommand env "node"
  if n.1 then
    (StepResult.ok,
      Event.step "Checking Node.js installation..." :: n.2 ++
        [Event.success "Node.js is already installed."])
  else if env.platform == "win32" then
    (StepResult.exit 1,
      Event.step "Checking Node.js installation..." :: n.2 ++
        [Event.step "Node.js not found. Installing using NVM...",
         Event.warning "Please install Node.js from https://nodejs.org/"])
  else
    andThen (emits (Event.step "Checking Node.js installation..." :: n.2 ++
        [Event.step "Node.js not found. Installing using NVM..."])) (fun _ =>
    andThen (execCmd env nvmInstallCmd) (fun _ =>
    execCmd env nvmLtsCmd))

/-- `installReactNativeCLI` (src/index.js:114-118): unconditionally runs the
global npm install of the CLI package. -/
def installReactNativeCLI (env : Env) : Run :=
  andThen (emits [Event.step "Installing React Native CLI..."]) (fun _ =>
  andThen (execCmd env npmCliCmd) (fun _ =>
  emits [Event.success "React Native CLI installed successfully."]))

/-- `setupMacOS` (src/index.js:120-150). -/
def setupMacOS (env : Env) : Run :=
  let b := checkCommand env "brew"
  andThen (if b.1 then
      emits (Event.step "Setting up macOS development environment..." :: b.2)
    else
      andThen (emits (Event.step "Setting up macOS development environment..." :: b.2 ++
          [Event.step "Installing Homebrew..."])) (fun _ =>
        execCmd env brewBootstrapCmd)) (fun _ =>
  andThen (emits [Event.step "Installing watchman..."]) (fun _ =>
  andThen (execCmd env watchmanCmd) (fun _ =>
  let x := checkCommand env "xcode-select"
  andThen (emits (x.2 ++ (if x.1 then [] else
      [Event.warning "Xcode is not installed. Please install Xcode from the App Store."]))) (fun _ =>
  andThen (emits [Event.step "Installing Java Development Kit..."]) (fun _ =>
  andThen (execCmd env brewJdkCmd) (fun _ =>
  andThen (emits [Event.ask androidPrompt]) (fun _ =>
  andThen (if toLowerStr env.answer == "y" then
      andThen (execCmd env openMacCmd) (fun _ =>
        emits [Event.warning androidManualWarn])
    else emits []) (fun _ =>
  emits [Event.success "macOS development environment setup complete."]))))))))

/-- `setupLinux` (src/index.js:152-172). -/
def setupLinux (env : Env) : Run :=
  andThen (emits [Event.step "Setting up Linux development environment...",
      Event.step "Installing Java Development Kit..."]) (fun _ =>
  andThen (execCmd env aptUpdateCmd) (fun _ =>
  andThen (execCmd env aptJdkCmd) (fun _ =>
  andThen (emits [Event.step "Installing additional dependencies..."]) (fun _ =>
  andThen (execCmd env aptAdbCmd) (fun _ =>
  andThen (emits [Event.ask androidPrompt]) (fun _ =>
  andThen (if toLowerStr env.answer == "y" then
      andThen (execCmd env openLinuxCmd) (fun _ =>
        emits [Event.warning androidManualWarn])
    else emits []) (fun _ =>
  emits [Event.success "Linux development environment setup complete."])))))))

/-- `setupWindows` (src/index.js:174-195). -/
def setupWindows (env : Env) : Run :=
  let c := checkCommand env "choco"
  andThen (if c.1 then
      emits (Event.step "Setting up Windows development environment..." :: c.2)
    else
      andThen (emits (Event.step "Setting up Windows development environment..." :: c.2 ++
          [Event.step "Installing Chocolatey..."])) (fun _ =>
        execCmd env chocoBootstrapCmd)) (fun _ =>
  andThen (emits [Event.step "Installing Java Development Kit..."]) (fun _ =>
  andThen (execCmd env chocoJdkCmd) (fun _ =>
  andThen (emits [Event.ask androidPrompt]) (fun _ =>
  andThen (if toLowerStr env.answer == "y" then
      andThen (execCmd env openWinCmd) (fun _ =>
        emits [Event.warning androidManualWarn])
    else emits []) (fun _ =>
  emits [Event.success "Windows development environment setup complete."])))))

/-- `printNextSteps` (src/index.js:197-204): the static next-steps lines. -/
def printNextStepsTr : List Event :=
  [Event.plain "\n📋 Next Steps:",
   Event.plain "1. Configure Android Studio and install Android SDK",
   Event.plain "2. Set ANDROID_HOME environment variable",
   Event.plain "3. Add platform-tools to PATH",
   Event.plain "4. Run \"react-native doctor\" to verify your installation",
   Event.plain "5. Create your first app: \"npx react-native init MyApp\""]

/-- The final success message printed by `execute` on the happy path. -/
def successMsg : String := "React Native environment setup completed successfully!"

/-- The platform dispatch inside `execute` (src/index.js:58-64): exactly one
of the three setups for a recognized tag, nothing for any other tag. -/
def platformStage (env : Env) : Run :=
  if env.platform == "darwin" then setupMacOS env
  else if env.platform == "linux" then setupLinux env
  else if env.platform == "win32" then setupWindows env
  else emits []

/-- The body of `execute`'s try block (src/index.js:47-67). -/
def pipeline (env : Env) : Run :=
  andThen (checkPrerequisites env) (fun _ =>
  andThen (checkNodeJS env) (fun _ =>
  andThen (installReactNativeCLI env) (fun _ =>
  andThen (platformStage env) (fun _ =>
  emits (Event.success successMsg :: printNextStepsTr)))))

/-- The banner printed before the try block (src/index.js:43-45). -/
def header (env : Env) : List Event :=
  [Event.plain "React Native Environment Setup",
   Event.plain "----------------------------",
   Event.plain ("Detected platform: " ++ env.platform ++ "\n")]

/-- `execute` (src/index.js:42-72): banner, then the try block; a raised
error is caught, printed as `Installation failed: <msg>` and turned into
`process.exit(1)`; a hard exit propagates unchanged. -/
def execute (env : Env) : Run :=
  match pipeline env with
  | (StepResult.err m, tr) =>
      (StepResult.exit 1, header env ++ tr ++ [Event.error ("Installation failed: " ++ m)])
  | (r, tr) => (r, header env ++ tr)

/-- Events that no stage method ever emits: bare console lines, error-tagged
lines, and the final pipeline success message (stages emit only their own
distinct success strings). -/
def benignB : Event → Bool
  | Event.plain _ => false
  | Event.error _ => false
  | Event.success s => s != successMsg
  | _ => true

/-- Error-tagged console lines; emitted only by the catch in `execute`. -/
def noErrB : Event → Bool
  | Event.error _ => false
  | _ => true

/-- A world on the linux tag where every external command succeeds. -/
def envAllOkLinux : Env := ⟨"linux", fun _ => none, "n"⟩

/-- A world where only the git existence probe fails. -/
def envNoGit : Env :=
  ⟨"linux", fun c => if c == "git --version" then some "git missing" else none, ""⟩

/-- A world with an unrecognized platform tag where every command succeeds. -/
def envUnknownTag : Env := ⟨"freebsd", fun _ => none, ""⟩

/-- A world where the global npm install of the CLI package raises. -/
def envNpmFail : Env :=
  ⟨"linux", fun c => if c == npmCliCmd then some "npm boom" else none, "n"⟩

/-- A Windows-tagged world where the node existence probe fails. -/
def envWinNoNode : Env :=
  ⟨"win32", fun c => if c == "node --version" then some "node missing" else none, ""⟩

/-- An unrecognized-tag world where the node existence probe fails. -/
def envOtherNoNode : Env :=
  ⟨"freebsd", fun c => if c == "node --version" then some "node missing" else none, ""⟩

/-- A macOS-tagged world where everything succeeds and the user answers Y. -/
def envDarwinYes : Env := ⟨"darwin", fun _ => none, "Y"⟩

/-- A macOS-tagged world where everything succeeds and the user declines. -/
def envDarwinOk : Env := ⟨"darwin", fun _ => none, "n"⟩

end RNInstaller

namespace RNInstaller

/-- The trace of a command invocation is the single exec event, whether or
not the subprocess succeeded. -/
theorem execCmd_snd (env : Env) (c : String) : (execCmd env c).2 = [Event.exec c] := by
  unfold execCmd; cases env.execResult c <;> rfl

/-- The trace of an existence probe is the single probe event. -/
theorem checkCommand_snd (env : Env) (c : String) :
    (checkCommand env c).2 = [Event.probe (c ++ " --version")] := by
  unfold checkCommand; cases env.execResult (c ++ " --version") <;> rfl

theorem checkCommand_false_eq {env : Env} {c : String}
    (h : (checkCommand env c).1 = false) :
    checkCommand env c = (false, [Event.probe (c ++ " --version")]) := by
  have h2 := checkCommand_snd env c
  rcases hg : checkCommand env c with ⟨b, tr⟩
  rw [hg] at h h2
  simp at h h2
  rw [h, h2]

theorem checkCommand_true_eq {env : Env} {c : String}
    (h : (checkCommand env c).1 = true) :
    checkCommand env c = (true, [Event.probe (c ++ " --version")]) := by
  have h2 := checkCommand_snd env c
  rcases hg : checkCommand env c with ⟨b, tr⟩
  rw [hg] at h h2
  simp at h h2
  rw [h, h2]

theorem andThen_ok_iff (x : Run) (f : Unit → Run) :
    (andThen x f).1 = StepResult.ok ↔ x.1 = StepResult.ok ∧ (f ()).1 = StepResult.ok := by
  unfold andThen; rcases x with ⟨r, tr⟩; cases r <;> simp

theorem andThen_of_ok (x : Run) (f : Unit → Run) (h : x.1 = StepResult.ok) :
    andThen x f = ((f ()).1, x.2 ++ (f ()).2) := by
  unfold andThen; rw [h]

theorem andThen_fst_of_ok (x : Run) (f : Unit → Run) (h : x.1 = StepResult.ok) :
    (andThen x f).1 = (f ()).1 := by rw [andThen_of_ok _ _ h]

theorem andThen_of_not_ok (x : Run) (f : Unit → Run) (h : x.1 ≠ StepResult.ok) :
    andThen x f = x := by
  unfold andThen; rcases x with ⟨r, tr⟩; cases r <;> simp_all

theorem andThen_all {p : Event → Bool} {x : Run} {f : Unit → Run}
    (hx : (x.2).all p = true) (hf : ((f ()).2).all p = true) :
    ((andThen x f).2).all p = true := by
  unfold andThen; rcases x with ⟨r, tr⟩; cases r <;> simp_all [List.all_append]

theorem andThen_not_ok_all {p : Event → Bool} {x : Run} {f : Unit → Run}
    (hx : (x.2).all p = true)
    (hf : (f ()).1 ≠ StepResult.ok → ((f ()).2).all p = true)
    (h : (andThen x f).1 ≠ StepResult.ok) : ((andThen x f).2).all p = true := by
  rcases x with ⟨r, tr⟩
  cases r <;> simp_all [andThen, List.all_append]

theorem execCmd_all (env : Env) (c : String) {p : Event → Bool}
    (h : p (Event.exec c) = true) : ((execCmd env c).2).all p = true := by
  rw [execCmd_snd]; simp [h]

theorem checkPrerequisites_benign (env : Env) :
    ((checkPrerequisites env).2).all benignB = true := by
  simp only [checkPrerequisites, checkCommand]
  rcases h : env.execResult ("git" ++ " --version") with _ | m <;> simp [h] <;> decide

theorem checkNodeJS_benign (env : Env) :
    ((checkNodeJS env).2).all benignB = true := by
  simp only [checkNodeJS, checkCommand_snd]
  split
  · rcases h : env.execResult ("node" ++ " --version") with _ | m <;>
      simp [checkCommand, h] <;> decide
  · split
    · rcases h : env.execResult ("node" ++ " --version") with _ | m <;>
        simp [checkCommand, h] <;> decide
    · apply andThen_all
      · rcases h : env.execResult ("node" ++ " --version") with _ | m <;>
          simp [checkCommand, h, emits] <;> decide
      · apply andThen_all
        · exact execCmd_all env nvmInstallCmd rfl
        · exact execCmd_all env nvmLtsCmd rfl

theorem installReactNativeCLI_benign (env : Env) :
    ((installReactNativeCLI env).2).all benignB = true := by
  simp only [installReactNativeCLI]
  apply andThen_all
  · decide
  · apply andThen_all
    · exact execCmd_all env npmCliCmd rfl
    · decide

theorem setupMacOS_benign (env : Env) :
    ((setupMacOS env).2).all benignB = true := by
  simp only [setupMacOS, checkCommand_snd]
  apply andThen_all
  · split
    · simp [checkCommand_snd, emits]; decide
    · apply andThen_all
      · simp [checkCommand_snd, emits]; decide
      · exact execCmd_all env brewBootstrapCmd rfl
  · apply andThen_all
    · decide
    · apply andThen_all
      · exact execCmd_all env watchmanCmd rfl
      · apply andThen_all
        · split <;> simp [checkCommand_snd, emits] <;> decide
        · apply andThen_all
          · decide
          · apply andThen_all
            · exact execCmd_all env brewJdkCmd rfl
            · apply andThen_all
              · decide
              · apply andThen_all
                · split
                  · apply andThen_all
                    · exact execCmd_all env openMacCmd rfl
                    · decide
                  · decide
                · decide

theorem setupLinux_benign (env : Env) :
    ((setupLinux env).2).all benignB = true := by
  simp only [setupLinux]
  apply andThen_all
  · decide
  · apply andThen_all
    · exact execCmd_all env aptUpdateCmd rfl
    · apply andThen_all
      · exact execCmd_all env aptJdkCmd rfl
      · apply andThen_all
        · decide
        · apply andThen_all
          · exact execCmd_all env aptAdbCmd rfl
          · apply andThen_all
            · decide
            · apply andThen_all
              · split
                · apply andThen_all
                  · exact execCmd_all env openLinuxCmd rfl
                  · decide
                · decide
              · decide

theorem setupWindows_benign (env : Env) :
    ((setupWindows env).2).all benignB = true := by
  simp only [setupWindows]
  apply andThen_all
  · split
    · simp [checkCommand_snd, emits]; decide
    · apply andThen_all
      · simp [checkCommand_snd, emits]; decide
      · exact execCmd_all env chocoBootstrapCmd rfl
  · apply andThen_all
    · decide
    · apply andThen_all
      · exact execCmd_all env chocoJdkCmd rfl
      · apply andThen_all
        · decide
        · apply andThen_all
          · split
            · apply andThen_all
              · exact execCmd_all env openWinCmd rfl
              · decide
            · decide
          · decide

theorem platformStage_benign (env : Env) :
    ((platformStage env).2).all benignB = true := by
  simp only [platformStage]
  split
  · exact setupMacOS_benign env
  · split
    · exact setupLinux_benign env
    · split
      · exact setupWindows_benign env
      · decide

end RNInstaller

namespace RNInstaller

theorem benign_imp_noErr {e : Event} (h : benignB e = true) : noErrB e = true := by
  cases e <;> simp_all [benignB, noErrB]

theorem all_benign_imp_noErr {l : List Event} (h : l.all benignB = true) :
    l.all noErrB = true := by
  rw [List.all_eq_true] at h ⊢
  exact fun e he => benign_imp_noErr (h e he)

/-- When the try block does not end normally, every event it emitted came
from a stage method, so none is a bare line, an error line, or the final
success message. -/
theorem pipeline_not_ok_benign (env : Env) (h : (pipeline env).1 ≠ StepResult.ok) :
    ((pipeline env).2).all benignB = true := by
  simp only [pipeline] at h ⊢
  apply andThen_not_ok_all (checkPrerequisites_benign env) ?_ h
  intro h2
  apply andThen_not_ok_all (checkNodeJS_benign env) ?_ h2
  intro h3
  apply andThen_not_ok_all (installReactNativeCLI_benign env) ?_ h3
  intro h4
  apply andThen_not_ok_all (platformStage_benign env) ?_ h4
  intro h5
  exact absurd rfl h5

/-- The try block never emits an error-tagged line in any world. -/
theorem pipeline_noErr (env : Env) : ((pipeline env).2).all noErrB = true := by
  simp only [pipeline]
  apply andThen_all (all_benign_imp_noErr (checkPrerequisites_benign env))
  apply andThen_all (all_benign_imp_noErr (checkNodeJS_benign env))
  apply andThen_all (all_benign_imp_noErr (installReactNativeCLI_benign env))
  apply andThen_all (all_benign_imp_noErr (platformStage_benign env))
  decide

theorem execute_of_pipeline_ok {env : Env} (h : (pipeline env).1 = StepResult.ok) :
    execute env = (StepResult.ok, header env ++ (pipeline env).2) := by
  unfold execute
  rcases hp : pipeline env with ⟨r, tr⟩
  rw [hp] at h
  simp at h
  subst h
  simp [hp]

theorem execute_of_pipeline_exit {env : Env} {c : Nat}
    (h : (pipeline env).1 = StepResult.exit c) :
    execute env = (StepResult.exit c, header env ++ (pipeline env).2) := by
  unfold execute
  rcases hp : pipeline env with ⟨r, tr⟩
  rw [hp] at h
  simp at h
  subst h
  simp [hp]

theorem execute_of_pipeline_err {env : Env} {m : String}
    (h : (pipeline env).1 = StepResult.err m) :
    execute env = (StepResult.exit 1,
      header env ++ (pipeline env).2 ++ [Event.error ("Installation failed: " ++ m)]) := by
  unfold execute
  rcases hp : pipeline env with ⟨r, tr⟩
  rw [hp] at h
  simp at h
  subst h
  simp [hp]

theorem execute_ok_pipeline_ok {env : Env} (h : (execute env).1 = StepResult.ok) :
    (pipeline env).1 = StepResult.ok := by
  by_contra hne
  rcases hc : (pipeline env).1 with _ | c | m
  · exact hne hc
  · rw [execute_of_pipeline_exit hc] at h; simp at h
  · rw [execute_of_pipeline_err hc] at h; simp at h

theorem pipeline_ok_parts {env : Env} (h : (pipeline env).1 = StepResult.ok) :
    (checkPrerequisites env).1 = StepResult.ok ∧ (checkNodeJS env).1 = StepResult.ok ∧
    (installReactNativeCLI env).1 = StepResult.ok ∧
    (platformStage env).1 = StepResult.ok := by
  simp only [pipeline, andThen_ok_iff] at h
  exact ⟨h.1, h.2.1, h.2.2.1, h.2.2.2.1⟩

/-- On a fully normal run the trace of the try block is exactly the four
stage traces in order followed by the success message and next steps. -/
theorem pipeline_ok_trace {env : Env} (h : (pipeline env).1 = StepResult.ok) :
    pipeline env = (StepResult.ok,
      (checkPrerequisites env).2 ++ (checkNodeJS env).2 ++ (installReactNativeCLI env).2 ++
        (platformStage env).2 ++ (Event.success successMsg :: printNextStepsTr)) := by
  obtain ⟨h1, h2, h3, h4⟩ := pipeline_ok_parts h
  simp only [pipeline]
  rw [andThen_of_ok _ _ h1]
  rw [andThen_of_ok _ _ h2]
  rw [andThen_of_ok _ _ h3]
  rw [andThen_of_ok _ _ h4]
  simp [emits, List.append_assoc]

/-- The banner line carrying the platform tag always starts with a capital
D, whatever the tag is. -/
theorem detected_head (p : String) :
    ("Detected platform: " ++ p ++ "\n").data.head? = some 'D' := by
  rw [String.data_append, String.data_append]
  rfl

theorem ne_detected {s : String} (h : s.data.head? ≠ some 'D') (p : String) :
    s ≠ "Detected platform: " ++ p ++ "\n" :=
  fun he => h (he ▸ detected_head p)

end RNInstaller

namespace RNInstaller

/-- In the macOS setup, once the Android Studio question has been asked, the
browser launch happens exactly when the lowercased reply is y, and any other
reply leaves the procedure to finish normally. -/
theorem setupMacOS_launch (env : Env) :
    Event.ask androidPrompt ∈ (setupMacOS env).2 →
    ((Event.exec openMacCmd ∈ (setupMacOS env).2 ↔ toLowerStr env.answer = "y") ∧
     (toLowerStr env.answer ≠ "y" → (setupMacOS env).1 = StepResult.ok)) := by
  have d1 : ¬ openMacCmd = brewBootstrapCmd := by decide
  have d2 : ¬ openMacCmd = watchmanCmd := by decide
  have d3 : ¬ openMacCmd = brewJdkCmd := by decide
  cases hy : toLowerStr env.answer == "y"
  · have hy2 : ¬ toLowerStr env.answer = "y" := ne_of_beq_false hy
    cases hb : (checkCommand env "brew").1 <;>
    rcases hbb : env.execResult brewBootstrapCmd with _ | mb <;>
    rcases hw : env.execResult watchmanCmd with _ | mw <;>
    cases hx : (checkCommand env "xcode-select").1 <;>
    rcases hj : env.execResult brewJdkCmd with _ | mj <;>
    simp [setupMacOS, andThen, emits, execCmd, checkCommand_snd, hb, hbb, hw, hx, hj, hy,
      hy2, d1, d2, d3]
  · have hy2 : toLowerStr env.answer = "y" := eq_of_beq hy
    cases hb : (checkCommand env "brew").1 <;>
    rcases hbb : env.execResult brewBootstrapCmd with _ | mb <;>
    rcases hw : env.execResult watchmanCmd with _ | mw <;>
    cases hx : (checkCommand env "xcode-select").1 <;>
    rcases hj : env.execResult brewJdkCmd with _ | mj <;>
    rcases ho : env.execResult openMacCmd with _ | mo <;>
    simp [setupMacOS, andThen, emits, execCmd, checkCommand_snd, hb, hbb, hw, hx, hj, hy,
      hy2, ho, d1, d2, d3]

/-- Same gating fact for the Linux setup. -/
theorem setupLinux_launch (env : Env) :
    Event.ask androidPrompt ∈ (setupLinux env).2 →
    ((Event.exec openLinuxCmd ∈ (setupLinux env).2 ↔ toLowerStr env.answer = "y") ∧
     (toLowerStr env.answer ≠ "y" → (setupLinux env).1 = StepResult.ok)) := by
  have d1 : ¬ openLinuxCmd = aptUpdateCmd := by decide
  have d2 : ¬ openLinuxCmd = aptJdkCmd := by decide
  have d3 : ¬ openLinuxCmd = aptAdbCmd := by decide
  cases hy : toLowerStr env.answer == "y"
  · have hy2 : ¬ toLowerStr env.answer = "y" := ne_of_beq_false hy
    rcases h1 : env.execResult aptUpdateCmd with _ | m1 <;>
    rcases h2 : env.execResult aptJdkCmd with _ | m2 <;>
    rcases h3 : env.execResult aptAdbCmd with _ | m3 <;>
    simp [setupLinux, andThen, emits, execCmd, h1, h2, h3, hy, hy2, d1, d2, d3]
  · have hy2 : toLowerStr env.answer = "y" := eq_of_beq hy
    rcases h1 : env.execResult aptUpdateCmd with _ | m1 <;>
    rcases h2 : env.execResult aptJdkCmd with _ | m2 <;>
    rcases h3 : env.execResult aptAdbCmd with _ | m3 <;>
    rcases ho : env.execResult openLinuxCmd with _ | mo <;>
    simp [setupLinux, andThen, emits, execCmd, h1, h2, h3, ho, hy, hy2, d1, d2, d3]

/-- Same gating fact for the Windows setup. -/
theorem setupWindows_launch (env : Env) :
    Event.ask androidPrompt ∈ (setupWindows env).2 →
    ((Event.exec openWinCmd ∈ (setupWindows env).2 ↔ toLowerStr env.answer = "y") ∧
     (toLowerStr env.answer ≠ "y" → (setupWindows env).1 = StepResult.ok)) := by
  have d1 : ¬ openWinCmd = chocoBootstrapCmd := by decide
  have d2 : ¬ openWinCmd = chocoJdkCmd := by decide
  cases hy : toLowerStr env.answer == "y"
  · have hy2 : ¬ toLowerStr env.answer = "y" := ne_of_beq_false hy
    cases hc : (checkCommand env "choco").1 <;>
    rcases h1 : env.execResult chocoBootstrapCmd with _ | m1 <;>
    rcases h2 : env.execResult chocoJdkCmd with _ | m2 <;>
    simp [setupWindows, andThen, emits, execCmd, checkCommand_snd, hc, h1, h2, hy, hy2,
      d1, d2]
  · have hy2 : toLowerStr env.answer = "y" := eq_of_beq hy
    cases hc : (checkCommand env "choco").1 <;>
    rcases h1 : env.execResult chocoBootstrapCmd with _ | m1 <;>
    rcases h2 : env.execResult chocoJdkCmd with _ | m2 <;>
    rcases ho : env.execResult openWinCmd with _ | mo <;>
    simp [setupWindows, andThen, emits, execCmd, checkCommand_snd, hc, h1, h2, ho, hy,
      hy2, d1, d2]

end RNInstaller

namespace RNInstaller

/-- Claim C1: for every platform tag other than darwin, linux and win32, a
run whose earlier stages all succeed completes the pipeline through the
final success message and the next-steps output, and its trace contains no
event of setupMacOS, setupLinux or setupWindows — it is exactly the banner
plus the three earlier stage traces plus the closing output. -/
theorem unrecognized_platform_completes (env : Env)
    (hp1 : env.platform ≠ "darwin") (hp2 : env.platform ≠ "linux")
    (hp3 : env.platform ≠ "win32")
    (h1 : (checkPrerequisites env).1 = StepResult.ok)
    (h2 : (checkNodeJS env).1 = StepResult.ok)
    (h3 : (installReactNativeCLI env).1 = StepResult.ok) :
    execute env = (StepResult.ok,
      header env ++ (checkPrerequisites env).2 ++ (checkNodeJS env).2 ++
        (installReactNativeCLI env).2 ++ (Event.success successMsg :: printNextStepsTr)) := by
  have hps : platformStage env = emits [] := by
    simp [platformStage, hp1, hp2, hp3]
  have hpipe : (pipeline env).1 = StepResult.ok := by
    simp [pipeline, andThen_ok_iff, h1, h2, h3, hps, emits]
  have ht := pipeline_ok_trace hpipe
  rw [execute_of_pipeline_ok hpipe, ht]
  simp [hps, emits, List.append_assoc]

/-- Claim C1 witness at a concrete freebsd-tagged world. -/
theorem unrecognized_platform_completes_witness :
    (envUnknownTag.platform ≠ "darwin" ∧ envUnknownTag.platform ≠ "linux" ∧
     envUnknownTag.platform ≠ "win32" ∧
     (checkPrerequisites envUnknownTag).1 = StepResult.ok ∧
     (checkNodeJS envUnknownTag).1 = StepResult.ok ∧
     (installReactNativeCLI envUnknownTag).1 = StepResult.ok) ∧
    execute envUnknownTag = (StepResult.ok,
      header envUnknownTag ++ (checkPrerequisites envUnknownTag).2 ++
        (checkNodeJS envUnknownTag).2 ++ (installReactNativeCLI envUnknownTag).2 ++
        (Event.success successMsg :: printNextStepsTr)) := by
  refine ⟨⟨by decide, by decide, by decide, by decide, by decide, by decide⟩, ?_⟩
  exact unrecognized_platform_completes envUnknownTag (by decide) (by decide) (by decide)
    (by decide) (by decide) (by decide)

/-- Claim C2: when the git existence probe reports absent, the whole run is
the banner, the prerequisite step line, the probe, and the warning, ending
in a hard exit with code 1 — no runtime check, CLI install or platform
setup event appears. -/
theorem missing_git_hard_exit (env : Env)
    (h : (checkCommand env "git").1 = false) :
    execute env = (StepResult.exit 1,
      header env ++ [Event.step "Checking prerequisites...",
        Event.probe "git --version",
        Event.warning "Git is not installed. Please install Git and run this script again."]) := by
  have egit : ("git" ++ " --version") = "git --version" := by decide
  have hcc : checkCommand env "git" = (false, [Event.probe "git --version"]) := by
    rw [checkCommand_false_eq h, egit]
  have hpre : checkPrerequisites env = (StepResult.exit 1,
      [Event.step "Checking prerequisites...", Event.probe "git --version",
       Event.warning "Git is not installed. Please install Git and run this script again."]) := by
    simp [checkPrerequisites, hcc]
  have hpipe : pipeline env = (StepResult.exit 1,
      [Event.step "Checking prerequisites...", Event.probe "git --version",
       Event.warning "Git is not installed. Please install Git and run this script again."]) := by
    simp only [pipeline]
    rw [andThen_of_not_ok _ _ (by rw [hpre]; simp), hpre]
  rw [execute_of_pipeline_exit (by rw [hpipe])]
  rw [hpipe]

/-- Claim C2 witness at a concrete world where only git is missing. -/
theorem missing_git_hard_exit_witness :
    (checkCommand envNoGit "git").1 = false ∧
    execute envNoGit = (StepResult.exit 1,
      header envNoGit ++ [Event.step "Checking prerequisites...",
        Event.probe "git --version",
        Event.warning "Git is not installed. Please install Git and run this script again."]) := by
  refine ⟨by decide, ?_⟩
  exact missing_git_hard_exit envNoGit (by decide)

/-- Claim C3: when some stage raises an error with message m, the run exits
with code 1, prints the generic error line carrying m, and neither the
final success message nor any next-steps line appears in the trace. -/
theorem stage_error_caught_and_fatal (env : Env) (m : String)
    (h : (pipeline env).1 = StepResult.err m) :
    (execute env).1 = StepResult.exit 1 ∧
    Event.error ("Installation failed: " ++ m) ∈ (execute env).2 ∧
    Event.success successMsg ∉ (execute env).2 ∧
    (∀ e ∈ printNextStepsTr, e ∉ (execute env).2) := by
  have hne : (pipeline env).1 ≠ StepResult.ok := by rw [h]; simp
  have hb := pipeline_not_ok_benign env hne
  rw [List.all_eq_true] at hb
  rw [execute_of_pipeline_err h]
  refine ⟨rfl, ?_, ?_, ?_⟩
  · simp
  · intro hmem
    simp [header] at hmem
    have hbad := hb _ hmem
    simp [benignB] at hbad
  · intro e he hmem
    simp only [printNextStepsTr] at he
    fin_cases he <;> simp [header] at hmem <;> rcases hmem with h1 | h1 <;>
      first
        | exact ne_detected (by decide) env.platform h1
        | (have hbad := hb _ h1; simp [benignB] at hbad)

/-- Claim C3 witness at a concrete world where the npm CLI install raises. -/
theorem stage_error_caught_and_fatal_witness :
    (pipeline envNpmFail).1 = StepResult.err "npm boom" ∧
    ((execute envNpmFail).1 = StepResult.exit 1 ∧
     Event.error ("Installation failed: " ++ "npm boom") ∈ (execute envNpmFail).2 ∧
     Event.success successMsg ∉ (execute envNpmFail).2 ∧
     Event.plain "\n📋 Next Steps:" ∉ (execute envNpmFail).2) := by
  refine ⟨by decide, ?_⟩
  have hth := stage_error_caught_and_fatal envNpmFail "npm boom" (by decide)
  exact ⟨hth.1, hth.2.1, hth.2.2.1, hth.2.2.2 _ (by decide)⟩

/-- Claim C4: on the win32 tag with the node probe reporting absent, the
runtime check prints the step lines and the manual-install guidance and
hard-exits with code 1; its trace holds no exec event at all (so no
download), and in a run whose prerequisite stage succeeded the whole
process exits with code 1. -/
theorem win32_missing_node_exits_without_download (env : Env)
    (hp : env.platform = "win32") (hn : (checkCommand env "node").1 = false) :
    checkNodeJS env = (StepResult.exit 1,
      [Event.step "Checking Node.js installation...",
       Event.probe "node --version",
       Event.step "Node.js not found. Installing using NVM...",
       Event.warning "Please install Node.js from https://nodejs.org/"]) ∧
    (∀ c, Event.exec c ∉ (checkNodeJS env).2) ∧
    ((checkPrerequisites env).1 = StepResult.ok → (execute env).1 = StepResult.exit 1) := by
  have enode : ("node" ++ " --version") = "node --version" := by decide
  have hcc : checkCommand env "node" = (false, [Event.probe "node --version"]) := by
    rw [checkCommand_false_eq hn, enode]
  have hnode : checkNodeJS env = (StepResult.exit 1,
      [Event.step "Checking Node.js installation...", Event.probe "node --version",
       Event.step "Node.js not found. Installing using NVM...",
       Event.warning "Please install Node.js from https://nodejs.org/"]) := by
    simp [checkNodeJS, hcc, hp]
  refine ⟨hnode, ?_, ?_⟩
  · intro c
    rw [hnode]
    simp
  · intro hpre
    have hpipe : (pipeline env).1 = StepResult.exit 1 := by
      simp only [pipeline]
      rw [andThen_fst_of_ok _ _ hpre]
      rw [andThen_of_not_ok _ _ (by rw [hnode]; simp)]
      rw [hnode]
    rw [execute_of_pipeline_exit hpipe]

/-- Claim C4 witness at a concrete win32 world without node. -/
theorem win32_missing_node_exits_without_download_witness :
    (envWinNoNode.platform = "win32" ∧ (checkCommand envWinNoNode "node").1 = false) ∧
    (checkNodeJS envWinNoNode = (StepResult.exit 1,
      [Event.step "Checking Node.js installation...",
       Event.probe "node --version",
       Event.step "Node.js not found. Installing using NVM...",
       Event.warning "Please install Node.js from https://nodejs.org/"]) ∧
     (∀ c, Event.exec c ∉ (checkNodeJS envWinNoNode).2) ∧
     ((checkPrerequisites envWinNoNode).1 = StepResult.ok →
       (execute envWinNoNode).1 = StepResult.exit 1)) := by
  refine ⟨⟨by decide, by decide⟩, ?_⟩
  exact win32_missing_node_exits_without_download envWinNoNode (by decide) (by decide)

end RNInstaller

namespace RNInstaller

/-- Claim C5: in each of the three platform setups, once the Android Studio
question has been asked, the browser-launch command runs if and only if the
lowercased reply equals y, and any other reply (the empty string included)
skips the launch and lets the procedure finish without raising. -/
theorem android_prompt_gates_launch (env : Env) :
    (Event.ask androidPrompt ∈ (setupMacOS env).2 →
      ((Event.exec openMacCmd ∈ (setupMacOS env).2 ↔ toLowerStr env.answer = "y") ∧
       (toLowerStr env.answer ≠ "y" → (setupMacOS env).1 = StepResult.ok))) ∧
    (Event.ask androidPrompt ∈ (setupLinux env).2 →
      ((Event.exec openLinuxCmd ∈ (setupLinux env).2 ↔ toLowerStr env.answer = "y") ∧
       (toLowerStr env.answer ≠ "y" → (setupLinux env).1 = StepResult.ok))) ∧
    (Event.ask androidPrompt ∈ (setupWindows env).2 →
      ((Event.exec openWinCmd ∈ (setupWindows env).2 ↔ toLowerStr env.answer = "y") ∧
       (toLowerStr env.answer ≠ "y" → (setupWindows env).1 = StepResult.ok))) :=
  ⟨setupMacOS_launch env, setupLinux_launch env, setupWindows_launch env⟩

/-- Claim C5 witness: a macOS world answering Y does reach the launch. -/
theorem android_prompt_gates_launch_witness :
    Event.ask androidPrompt ∈ (setupMacOS envDarwinYes).2 ∧
    Event.exec openMacCmd ∈ (setupMacOS envDarwinYes).2 := by
  refine ⟨by decide, ?_⟩
  exact (((android_prompt_gates_launch envDarwinYes).1 (by decide)).1).mpr (by decide)

/-- Claim C6: when the node existence probe reports present, the runtime
check only prints its step line, runs the probe and prints the success
line; no exec event (no NVM download, no install) occurs in it. -/
theorem node_present_skips_install (env : Env)
    (h : (checkCommand env "node").1 = true) :
    checkNodeJS env = (StepResult.ok,
      [Event.step "Checking Node.js installation...",
       Event.probe "node --version",
       Event.success "Node.js is already installed."]) ∧
    (∀ c, Event.exec c ∉ (checkNodeJS env).2) := by
  have enode : ("node" ++ " --version") = "node --version" := by decide
  have hcc : checkCommand env "node" = (true, [Event.probe "node --version"]) := by
    rw [checkCommand_true_eq h, enode]
  have hnode : checkNodeJS env = (StepResult.ok,
      [Event.step "Checking Node.js installation...", Event.probe "node --version",
       Event.success "Node.js is already installed."]) := by
    simp [checkNodeJS, hcc]
  refine ⟨hnode, ?_⟩
  intro c
  rw [hnode]
  simp

/-- Claim C6 witness at a concrete world where every command succeeds. -/
theorem node_present_skips_install_witness :
    (checkCommand envAllOkLinux "node").1 = true ∧
    (checkNodeJS envAllOkLinux = (StepResult.ok,
      [Event.step "Checking Node.js installation...",
       Event.probe "node --version",
       Event.success "Node.js is already installed."]) ∧
     (∀ c, Event.exec c ∉ (checkNodeJS envAllOkLinux).2)) := by
  refine ⟨by decide, ?_⟩
  exact node_present_skips_install envAllOkLinux (by decide)

/-- Claim C7: a fully successful run on a recognized tag traces exactly the
banner, the prerequisite check, the runtime check, the CLI install, the one
setup selected by the tag, the success message and the next steps — in that
order and nothing else. -/
theorem recognized_platform_exact_sequence (env : Env)
    (h : (execute env).1 = StepResult.ok) :
    (env.platform = "darwin" →
      (execute env).2 = header env ++ (checkPrerequisites env).2 ++ (checkNodeJS env).2 ++
        (installReactNativeCLI env).2 ++ (setupMacOS env).2 ++
        (Event.success successMsg :: printNextStepsTr)) ∧
    (env.platform = "linux" →
      (execute env).2 = header env ++ (checkPrerequisites env).2 ++ (checkNodeJS env).2 ++
        (installReactNativeCLI env).2 ++ (setupLinux env).2 ++
        (Event.success successMsg :: printNextStepsTr)) ∧
    (env.platform = "win32" →
      (execute env).2 = header env ++ (checkPrerequisites env).2 ++ (checkNodeJS env).2 ++
        (installReactNativeCLI env).2 ++ (setupWindows env).2 ++
        (Event.success successMsg :: printNextStepsTr)) := by
  have hp := execute_ok_pipeline_ok h
  have ht := pipeline_ok_trace hp
  have hex := execute_of_pipeline_ok hp
  refine ⟨?_, ?_, ?_⟩ <;> intro hplat <;>
    simp [hex, ht, platformStage, hplat, List.append_assoc]

/-- Claim C7 witness at a concrete all-successful macOS world. -/
theorem recognized_platform_exact_sequence_witness :
    (execute envDarwinOk).1 = StepResult.ok ∧
    (execute envDarwinOk).2 = header envDarwinOk ++ (checkPrerequisites envDarwinOk).2 ++
      (checkNodeJS envDarwinOk).2 ++ (installReactNativeCLI envDarwinOk).2 ++
      (setupMacOS envDarwinOk).2 ++ (Event.success successMsg :: printNextStepsTr) := by
  refine ⟨by decide, ?_⟩
  exact (recognized_platform_exact_sequence envDarwinOk (by decide)).1 rfl

/-- Claim C8: checkCommand is total — it returns true exactly when the
version probe of the command succeeds, false exactly when that invocation
fails for any reason (the failure is swallowed), and in both cases its only
effect is the probe itself. -/
theorem checkCommand_reports_probe_outcome (env : Env) (command : String) :
    ((checkCommand env command).1 = true ↔ env.execResult (command ++ " --version") = none) ∧
    ((checkCommand env command).1 = false ↔
      ∃ m, env.execResult (command ++ " --version") = some m) ∧
    (checkCommand env command).2 = [Event.probe (command ++ " --version")] := by
  rcases h : env.execResult (command ++ " --version") with _ | m <;> simp [checkCommand, h]

/-- Claim C8 witness: both outcomes at concrete worlds. -/
theorem checkCommand_reports_probe_outcome_witness :
    (checkCommand envAllOkLinux "git").1 = true ∧
    (checkCommand envNoGit "git").1 = false := by
  constructor
  · exact ((checkCommand_reports_probe_outcome envAllOkLinux "git").1).mpr (by decide)
  · exact ((checkCommand_reports_probe_outcome envNoGit "git").2.1).mpr
      ⟨"git missing", by decide⟩

/-- Claim C9: on any tag other than win32 — unrecognized tags included —
an absent runtime makes checkNodeJS attempt the NVM bootstrap download (its
exec event is in the trace), never hard-exit, and, when the bootstrap
succeeds, run the LTS install as well. -/
theorem non_win32_missing_node_bootstraps (env : Env)
    (hp : env.platform ≠ "win32") (hn : (checkCommand env "node").1 = false) :
    Event.exec nvmInstallCmd ∈ (checkNodeJS env).2 ∧
    (∀ c, (checkNodeJS env).1 ≠ StepResult.exit c) ∧
    (env.execResult nvmInstallCmd = none → Event.exec nvmLtsCmd ∈ (checkNodeJS env).2) := by
  have enode : ("node" ++ " --version") = "node --version" := by decide
  have hcc : checkCommand env "node" = (false, [Event.probe "node --version"]) := by
    rw [checkCommand_false_eq hn, enode]
  have hplat : (env.platform == "win32") = false := by simp [hp]
  rcases hb : env.execResult nvmInstallCmd with _ | mb <;>
  rcases hl : env.execResult nvmLtsCmd with _ | ml <;>
  simp [checkNodeJS, hcc, hplat, andThen, emits, execCmd, hb, hl]

/-- Claim C9 witness at a concrete freebsd-tagged world without node. -/
theorem non_win32_missing_node_bootstraps_witness :
    (envOtherNoNode.platform ≠ "win32" ∧ (checkCommand envOtherNoNode "node").1 = false) ∧
    (Event.exec nvmInstallCmd ∈ (checkNodeJS envOtherNoNode).2 ∧
     Event.exec nvmLtsCmd ∈ (checkNodeJS envOtherNoNode).2) := by
  refine ⟨⟨by decide, by decide⟩, ?_, ?_⟩
  · exact (non_win32_missing_node_bootstraps envOtherNoNode (by decide) (by decide)).1
  · exact (non_win32_missing_node_bootstraps envOtherNoNode (by decide) (by decide)).2.2
      (by decide)

/-- Claim C10: no run both prints an error-tagged line and the final
success message — the catch path and the success path are mutually
exclusive. -/
theorem success_and_error_exclusive (env : Env) (s : String)
    (herr : Event.error s ∈ (execute env).2) :
    Event.success successMsg ∉ (execute env).2 := by
  have hnoerr := pipeline_noErr env
  rw [List.all_eq_true] at hnoerr
  rcases hc : (pipeline env).1 with _ | c | m
  · rw [execute_of_pipeline_ok hc] at herr
    exfalso
    simp [header] at herr
    have hbad := hnoerr _ herr
    simp [noErrB] at hbad
  · rw [execute_of_pipeline_exit hc] at herr
    exfalso
    simp [header] at herr
    have hbad := hnoerr _ herr
    simp [noErrB] at hbad
  · rw [execute_of_pipeline_err hc]
    intro hsucc
    simp [header] at hsucc
    have hne : (pipeline env).1 ≠ StepResult.ok := by rw [hc]; simp
    have hb := pipeline_not_ok_benign env hne
    rw [List.all_eq_true] at hb
    have hbad := hb _ hsucc
    simp [benignB] at hbad

/-- Claim C10 witness at the concrete failing-npm world. -/
theorem success_and_error_exclusive_witness :
    Event.error "Installation failed: npm boom" ∈ (execute envNpmFail).2 ∧
    Event.success successMsg ∉ (execute envNpmFail).2 := by
  refine ⟨by decide, ?_⟩
  exact success_and_error_exclusive envNpmFail "Installation failed: npm boom" (by decide)

end RNInstaller
